import Mathlib

/-!
# Verification development for the TamanEdu OCR service wrapper

A shallow embedding of `src/ocr_service.py` (the single source file of the
repository): the `OCRService` class methods `preprocess_image`,
`extract_text_from_image`, `extract_text_from_base64`, and the CLI entry
point `main`.

Modelling conventions:
* Python strings are `List Char`; file paths are `List Char`.
* Raw file bytes and decoded pixel buffers are opaque data, coded as `Nat`
  (`Bytes`, `Image`); the embedding never inspects them, it only passes them
  to the opaque library functions collected in `Env`.
* Floating-point confidences and polygon coordinates are modelled as `ℚ`;
  the threshold literal `0.1` is the rational `1/10`.
* Python `int(x)` is truncation toward zero (`pyInt`).
* Exceptions are modelled with `Except Err`; a Python `try/except` block
  that substitutes a fallback becomes a `match` on the `Except` value.
* The external libraries (cv2, PIL, easyocr, base64) are opaque parameters:
  the fields of the `Env` structure.  A filesystem is a map from paths to
  file bytes; `cv2.imread` on a missing or undecodable file yields `none`
  (it does not raise), while `easyocr.readtext` on a missing path raises,
  and `readtext(None)` raises (library behaviour, recorded as hypotheses or
  as the `engineNone` field where needed).
* `cv2.imwrite` is modelled as always creating the file (its boolean return
  value is ignored by the source).
* Diagnostic `print(..., file=sys.stderr)` lines inside the service methods
  do not influence any modelled observable; only the entry point's own
  stderr error line is modelled (`MainResult.errLines`).
-/

/-- Opaque raw file bytes. -/
abbrev Bytes := Nat

/-- Opaque decoded pixel buffer (an ndarray in the source). -/
abbrev Image := Nat

/-- A file path, a Python string. -/
abbrev FPath := List Char

/-- Exception payloads are opaque strings. -/
abbrev Err := List Char

/-- The filesystem: contents of each path, `none` when the path does not exist. -/
abbrev FS := FPath → Option Bytes

/-- The `bbox` dictionary built by `extract_text_from_image`. -/
structure BBox where
  x0 : Int
  y0 : Int
  x1 : Int
  y1 : Int
deriving DecidableEq, Repr

/-- One result dictionary `{text, confidence, bbox}` of the service. -/
structure Detection where
  text : List Char
  confidence : ℚ
  bbox : BBox
deriving DecidableEq, Repr

/-- One raw triple `(bbox, text, confidence)` returned by `easyocr.readtext`:
a four-point bounding polygon with a recognised string and a confidence. -/
structure RawDetection where
  p0 : ℚ × ℚ
  p1 : ℚ × ℚ
  p2 : ℚ × ℚ
  p3 : ℚ × ℚ
  text : List Char
  confidence : ℚ
deriving DecidableEq, Repr

/-- The opaque external collaborators of the wrapper: cv2, PIL, easyocr and
the base64 codec, plus whether engine construction succeeds. -/
structure Env where
  /-- `cv2.imread(path)` decode step on the file bytes (colour). -/
  decodeImage : Bytes → Option Image
  /-- `cv2.imread(path, cv2.IMREAD_GRAYSCALE)` decode step on the file bytes. -/
  decodeGray : Bytes → Option Image
  /-- `cv2.cvtColor(image, cv2.COLOR_BGR2GRAY)`. -/
  cvtColorGray : Image → Except Err Image
  /-- `cv2.GaussianBlur(gray, (3, 3), 0)`. -/
  gaussianBlur : Image → Except Err Image
  /-- `cv2.adaptiveThreshold(blurred, 255, ADAPTIVE_THRESH_GAUSSIAN_C, THRESH_BINARY, 11, 2)`. -/
  adaptiveThreshold : Image → Except Err Image
  /-- `cv2.morphologyEx(thresh, cv2.MORPH_CLOSE, kernel)` with the 1x1 kernel. -/
  morphologyEx : Image → Except Err Image
  /-- `self.reader.readtext(ndarray)`: the engine on an in-memory image. -/
  engineImage : Image → Except Err (List RawDetection)
  /-- The engine on the decoded content of an existing file (readtext given a path). -/
  engineFile : Bytes → Except Err (List RawDetection)
  /-- `self.reader.readtext(None)`: in the real library this raises; kept opaque. -/
  engineNone : Except Err (List RawDetection)
  /-- `base64.b64decode(string)`. -/
  b64decode : List Char → Except Err Bytes
  /-- `Image.open(BytesIO(data))` via PIL, producing an RGB pixel buffer. -/
  pilOpen : Bytes → Except Err Image
  /-- `cv2.cvtColor(np.array(image), cv2.COLOR_RGB2BGR)` (pure channel reorder). -/
  rgb2bgr : Image → Image
  /-- The JPEG encoding performed by `cv2.imwrite(path, img)` for a `.jpg` path. -/
  jpegEncode : Image → Bytes
  /-- `repr` of a Python float, used by `json.dumps` for the confidence. -/
  reprFloat : ℚ → List Char
  /-- Whether `easyocr.Reader([en], gpu=False)` construction succeeds. -/
  initOk : Bool

/-- `cv2.imread(image_path)` over the filesystem: `None` for a missing or
undecodable file. -/
def cvImread (env : Env) (fs : FS) (p : FPath) : Option Image :=
  (fs p).bind env.decodeImage

/-- `cv2.imread(image_path, cv2.IMREAD_GRAYSCALE)` over the filesystem. -/
def cvImreadGray (env : Env) (fs : FS) (p : FPath) : Option Image :=
  (fs p).bind env.decodeGray

/-- The body of the `try` block of `OCRService.preprocess_image`: load,
grayscale, blur, adaptive threshold, morphological close; raises (returns
`.error`) when the load yields `None` or any chain step raises. -/
def preprocessBody (env : Env) (fs : FS) (p : FPath) : Except Err Image :=
  match cvImread env fs p with
  | none => .error (String.toList "Could not load image from path")
  | some image =>
    match env.cvtColorGray image with
    | .error e => .error e
    | .ok gray =>
      match env.gaussianBlur gray with
      | .error e => .error e
      | .ok blurred =>
        match env.adaptiveThreshold blurred with
        | .error e => .error e
        | .ok thresh => env.morphologyEx thresh

/-- `OCRService.preprocess_image`: on any exception in the chain, falls back
to `cv2.imread(image_path, cv2.IMREAD_GRAYSCALE)` (which may itself be
`None`, i.e. `none`). -/
def preprocess_image (env : Env) (fs : FS) (p : FPath) : Option Image :=
  match preprocessBody env fs p with
  | .ok cleaned => some cleaned
  | .error _ => cvImreadGray env fs p

/-- The value passed to `self.reader.readtext`: an in-memory image (the
preprocessing result), `None` (a failed grayscale fallback), or the raw
path string (when preprocessing is skipped). -/
inductive ReadtextInput where
  | img (i : Image)
  | noneInput
  | path (p : FPath)
deriving DecidableEq

/-- Dispatch of `self.reader.readtext` on its argument.  On a path argument
the library opens the file itself: a missing path raises, an existing file
is decoded and fed to the engine. -/
def runReadtext (env : Env) (fs : FS) : ReadtextInput → Except Err (List RawDetection)
  | .img i => env.engineImage i
  | .noneInput => env.engineNone
  | .path p =>
    match fs p with
    | none => .error (String.toList "readtext: cannot open file")
    | some b => env.engineFile b

/-- Python whitespace test for `str.strip` (ASCII whitespace characters;
the generic strip lemmas below do not depend on the exact set). -/
def pyIsSpace (c : Char) : Bool :=
  c = ' ' || c = '\t' || c = '\n' || c = '\x0d' || c = '\x0b' || c = '\x0c'

/-- Python `str.strip()`: drop leading and trailing whitespace. -/
def pyStrip (s : List Char) : List Char :=
  ((s.dropWhile pyIsSpace).reverse.dropWhile pyIsSpace).reverse

/-- Python `int(x)` on a float/rational: truncation toward zero. -/
def pyInt (q : ℚ) : Int :=
  if 0 ≤ q then ⌊q⌋ else ⌈q⌉

/-- The result dictionary built from one raw triple: stripped text, the raw
confidence, and the bbox taking the polygon's point `[0]` as `(x0, y0)` and
point `[2]` as `(x1, y1)`, each coordinate truncated by `int(...)`. -/
def formatDetection (r : RawDetection) : Detection :=
  { text := pyStrip r.text
    confidence := r.confidence
    bbox :=
      { x0 := pyInt r.p0.1
        y0 := pyInt r.p0.2
        x1 := pyInt r.p2.1
        y1 := pyInt r.p2.2 } }

/-- The result-formatting loop of `extract_text_from_image`: keep raw
triples with `confidence > 0.1` and build the result dictionaries. -/
def formatResults (rs : List RawDetection) : List Detection :=
  (rs.filter (fun r => (1 : ℚ)/10 < r.confidence)).map formatDetection

/-- The value handed to `readtext` by `extract_text_from_image`: the
preprocessing result (possibly `None`) when `preprocess` is set, otherwise
the path itself. -/
def extractInput (env : Env) (fs : FS) (p : FPath) (preprocess : Bool) : ReadtextInput :=
  if preprocess then
    match preprocess_image env fs p with
    | some processed => .img processed
    | none => .noneInput
  else
    .path p

/-- The body of the `try` block of `OCRService.extract_text_from_image`:
run `readtext`, then filter and format its raw triples. -/
def extractBody (env : Env) (fs : FS) (p : FPath) (preprocess : Bool) :
    Except Err (List Detection) :=
  match runReadtext env fs (extractInput env fs p preprocess) with
  | .error e => .error e
  | .ok results => .ok (formatResults results)

/-- `OCRService.extract_text_from_image`: the `try` body, with any exception
swallowed into an empty result list. -/
def extract_text_from_image (env : Env) (fs : FS) (p : FPath) (preprocess : Bool) :
    List Detection :=
  match extractBody env fs p preprocess with
  | .ok results => results
  | .error _ => []

/-- The fixed temporary path `/tmp/temp_ocr_image.jpg` used by the base64 path. -/
def tempPath : FPath := String.toList "/tmp/temp_ocr_image.jpg"

/-- `OCRService.extract_text_from_base64`: decode the payload, open it with
PIL, convert RGB to BGR, write a JPEG at the fixed temp path, delegate to
`extract_text_from_image`, remove the temp file if it exists, and return
the results; any exception is swallowed into an empty result list, with the
filesystem as it stood when the exception was raised.  Returns the result
list together with the final filesystem. -/
def extract_text_from_base64 (env : Env) (fs : FS) (s : List Char) (preprocess : Bool) :
    List Detection × FS :=
  match env.b64decode s with
  | .error _ => ([], fs)
  | .ok image_data =>
    match env.pilOpen image_data with
    | .error _ => ([], fs)
    | .ok image =>
      let cv_image := env.rgb2bgr image
      let fs1 : FS := fun q => if q = tempPath then some (env.jpegEncode cv_image) else fs q
      let results := extract_text_from_image env fs1 tempPath preprocess
      let fs2 : FS := fun q => if q = tempPath then none else fs1 q
      (results, fs2)

/-- Python `sep.join(parts)`. -/
def pyJoin (sep : List Char) : List (List Char) → List Char
  | [] => []
  | [t] => t
  | t :: ts => t ++ sep ++ pyJoin sep ts

/-- `n` spaces of indentation. -/
def spc (n : Nat) : List Char := List.replicate n ' '

/-- JSON escaping of one character as `json.dumps` performs it for the
common characters (quote, backslash, newline, tab, carriage return; the
`\uXXXX` escapes of other control and non-ASCII characters are not
modelled — no claim depends on them). -/
def jsonEscapeChar (c : Char) : List Char :=
  if c = '"' then ['\\', '"']
  else if c = '\\' then ['\\', '\\']
  else if c = '\n' then ['\\', 'n']
  else if c = '\t' then ['\\', 't']
  else if c = '\x0d' then ['\\', 'r']
  else [c]

/-- A JSON string literal. -/
def jsonString (s : List Char) : List Char :=
  '"' :: (s.flatMap jsonEscapeChar) ++ ['"']

/-- Decimal rendering of an integer, as `json.dumps` emits it. -/
def intRepr (i : Int) : List Char := (toString i).toList

/-- One `"key": value` item at the given indentation. -/
def jsonKV (indent : Nat) (k : List Char) (v : List Char) : List Char :=
  spc indent ++ jsonString k ++ String.toList ": " ++ v

/-- The `bbox` object as `json.dumps(..., indent=2)` renders it inside a
detection object (items at column 6, closing brace at column 4). -/
def jsonBBoxVal (b : BBox) : List Char :=
  ['{', '\n'] ++
  pyJoin (String.toList ",\n")
    [ jsonKV 6 (String.toList "x0") (intRepr b.x0)
    , jsonKV 6 (String.toList "y0") (intRepr b.y0)
    , jsonKV 6 (String.toList "x1") (intRepr b.x1)
    , jsonKV 6 (String.toList "y1") (intRepr b.y1) ] ++
  ['\n'] ++ spc 4 ++ ['}']

/-- One detection object as `json.dumps(..., indent=2)` renders it inside
the top-level array (keys in insertion order: text, confidence, bbox). -/
def jsonDetectionVal (env : Env) (d : Detection) : List Char :=
  ['{', '\n'] ++
  pyJoin (String.toList ",\n")
    [ jsonKV 4 (String.toList "text") (jsonString d.text)
    , jsonKV 4 (String.toList "confidence") (env.reprFloat d.confidence)
    , jsonKV 4 (String.toList "bbox") (jsonBBoxVal d.bbox) ] ++
  ['\n'] ++ spc 2 ++ ['}']

/-- `json.dumps(results, indent=2)`: the empty array collapses to `[]`,
a nonempty array puts each element on its own indented line. -/
def jsonDumps (env : Env) (ds : List Detection) : List Char :=
  match ds with
  | [] => ['[', ']']
  | _ =>
    ['[', '\n'] ++
    pyJoin (String.toList ",\n") (ds.map (fun d => spc 2 ++ jsonDetectionVal env d)) ++
    ['\n', ']']

/-- Split a character stream at newline characters; a stream with `k`
newlines yields `k + 1` (possibly empty) segments. -/
def splitNl : List Char → List (List Char)
  | [] => [[]]
  | c :: cs =>
    if c = '\n' then [] :: splitNl cs
    else
      match splitNl cs with
      | [] => [[c]]
      | l :: ls => (c :: l) :: ls

/-- The lines of a stdout stream that ends in a newline: every segment
before the final (empty) one.  A stream consisting of a single `\n` is one
empty line, not zero lines. -/
def stdoutLines (s : List Char) : List (List Char) :=
  (splitNl s).dropLast

/-- `--output-format` choices. -/
inductive OutputFormat where
  | json
  | text
deriving DecidableEq, Repr

/-- The parsed argparse namespace: `args.image` and `args.base64` are `None`
when absent (an explicitly supplied empty string is `some []`, which Python
truthiness treats like absent). -/
structure Args where
  image : Option (List Char)
  base64 : Option (List Char)
  noPreprocess : Bool
  outputFormat : OutputFormat

/-- Python truthiness of an optional string: `None` and the empty string
are falsy. -/
def pyTruthy : Option (List Char) → Bool
  | none => false
  | some s => !s.isEmpty

/-- The observables of one CLI invocation: the exit code, everything
written to stdout, and the entry point's own stderr error lines (the
service methods' diagnostic stderr lines are not modelled). -/
structure MainResult where
  exitCode : Nat
  stdout : List Char
  errLines : List (List Char)
deriving DecidableEq, Repr

/-- The error line printed when no input source is given. -/
def errNoInput : List Char :=
  String.toList "Error: Must provide either --image or --base64"

namespace CLI

/-- The `main` entry point: requires a truthy `--image` or `--base64`
(else exit 1 with an error on stderr and nothing on stdout); constructs the
engine (failure is fatal, exit 1); dispatches on `args.image` first; prints
the results in the selected format followed by the newline added by
`print`; exits 0. -/
def main (env : Env) (fs : FS) (args : Args) : MainResult :=
  if !pyTruthy args.image && !pyTruthy args.base64 then
    { exitCode := 1, stdout := [], errLines := [errNoInput] }
  else if !env.initOk then
    { exitCode := 1, stdout := []
      errLines := [String.toList "Error: engine initialization failed"] }
  else
    let results :=
      if pyTruthy args.image then
        extract_text_from_image env fs (args.image.getD []) (!args.noPreprocess)
      else
        (extract_text_from_base64 env fs (args.base64.getD []) (!args.noPreprocess)).1
    let out :=
      match args.outputFormat with
      | .json => jsonDumps env results ++ ['\n']
      | .text => pyJoin ['\n'] (results.map Detection.text) ++ ['\n']
    { exitCode := 0, stdout := out, errLines := [] }

end CLI

/-! ## Concrete instantiations used by witnesses and counterexamples -/

/-- A benign environment: decoding and the preprocessing chain succeed and
act as the identity on the opaque data, the engine detects nothing,
`readtext(None)` raises, base64 decoding fails (overridden where needed). -/
def idEnv : Env :=
  { decodeImage := fun b => some b
    decodeGray := fun b => some b
    cvtColorGray := fun i => .ok i
    gaussianBlur := fun i => .ok i
    adaptiveThreshold := fun i => .ok i
    morphologyEx := fun i => .ok i
    engineImage := fun _ => .ok []
    engineFile := fun _ => .ok []
    engineNone := .error (String.toList "readtext(None)")
    b64decode := fun _ => .error (String.toList "bad base64")
    pilOpen := fun b => .ok b
    rgb2bgr := fun i => i
    jpegEncode := fun i => i
    reprFloat := fun _ => []
    initOk := true }

/-- A concrete image path. -/
def pW : FPath := String.toList "img.png"

/-- A filesystem holding one image file at `pW`. -/
def fsW : FS := fun q => if q = pW then some 0 else none

/-- The empty filesystem. -/
def fsEmpty : FS := fun _ => none

/-- A well-ordered raw triple (polygon in the engine's standard
top-left, top-right, bottom-right, bottom-left order) with confidence 0.9
and padded text. -/
def rawW : RawDetection :=
  { p0 := (0, 0), p1 := (4, 0), p2 := (4, 2), p3 := (0, 2)
    text := String.toList " hello "
    confidence := 9/10 }

/-- The environment whose engine detects exactly `rawW` in any file. -/
def envW : Env := { idEnv with engineFile := fun _ => .ok [rawW] }

/-- The detection the service builds from `rawW`. -/
def dW : Detection := formatDetection rawW

/-! ## Structure of the extraction results -/

/-- Every detection returned by `extract_text_from_image` is the formatting
of a raw triple that passed the confidence filter, coming from a successful
`readtext` call. -/
lemma mem_extract {env : Env} {fs : FS} {p : FPath} {pre : Bool} {d : Detection}
    (h : d ∈ extract_text_from_image env fs p pre) :
    ∃ rs, runReadtext env fs (extractInput env fs p pre) = .ok rs ∧
      ∃ r ∈ rs, (1 : ℚ)/10 < r.confidence ∧ d = formatDetection r := by
  unfold extract_text_from_image extractBody at h
  cases hr : runReadtext env fs (extractInput env fs p pre) with
  | error e => rw [hr] at h; simp at h
  | ok rs =>
    rw [hr] at h
    refine ⟨rs, rfl, ?_⟩
    unfold formatResults at h
    simp only [List.mem_map, List.mem_filter] at h
    obtain ⟨r, ⟨hrm, hc⟩, rfl⟩ := h
    exact ⟨r, hrm, of_decide_eq_true hc, rfl⟩

/-- Python truncation toward zero is monotone. -/
lemma pyInt_mono {a b : ℚ} (h : a ≤ b) : pyInt a ≤ pyInt b := by
  unfold pyInt
  by_cases ha : 0 ≤ a
  · rw [if_pos ha, if_pos (le_trans ha h)]
    exact Int.floor_le_floor h
  · rw [if_neg ha]
    by_cases hb : 0 ≤ b
    · rw [if_pos hb]
      have h1 : ⌈a⌉ ≤ 0 := by
        have h2 := Int.ceil_le_ceil (α := ℚ) (le_of_lt (not_le.mp ha))
        simpa using h2
      exact le_trans h1 (Int.floor_nonneg.mpr hb)
    · rw [if_neg hb]
      exact Int.ceil_le_ceil h

/-! ## C1 -/

/-- **C1**: every element of the list returned by `extract_text_from_image`
has confidence strictly greater than 0.1; in particular no returned
detection has confidence exactly 0.1 (such a raw triple is excluded by the
strict filter). -/
theorem C1_confidence_strictly_above_threshold (env : Env) (fs : FS) (p : FPath)
    (pre : Bool) (d : Detection) (h : d ∈ extract_text_from_image env fs p pre) :
    (1 : ℚ)/10 < d.confidence ∧ d.confidence ≠ 1/10 := by
  obtain ⟨rs, _, r, _, hc, rfl⟩ := mem_extract h
  have hconf : (formatDetection r).confidence = r.confidence := rfl
  rw [hconf]
  exact ⟨hc, ne_of_gt hc⟩

/-- The decidable form of `0.1 < 0.9`, used to evaluate the confidence
filter on the concrete raw triple `rawW` (the kernel cannot reduce `ℚ`
division, so `decide` is unavailable and the fact is supplied to `simp`). -/
lemma dec_tenth_lt : decide ((10 : ℚ)⁻¹ < 9 / 10) = true := by
  rw [decide_eq_true_eq]; norm_num

/-- Evaluation of the extraction at the concrete environment `envW`. -/
lemma extract_envW_eq : extract_text_from_image envW fsW pW false = [dW] := by
  simp [extract_text_from_image, extractBody, extractInput, runReadtext, envW, idEnv, fsW,
    formatResults, formatDetection, dW, rawW, pyStrip, pyInt, List.dropWhile,
    List.filter, dec_tenth_lt, pyIsSpace]

/-- Witness for C1 at a concrete environment: the engine reports one triple
with confidence 0.9, and the returned detection satisfies the bound. -/
theorem C1_witness :
    dW ∈ extract_text_from_image envW fsW pW false ∧
      ((1 : ℚ)/10 < dW.confidence ∧ dW.confidence ≠ 1/10) := by
  have hmem : dW ∈ extract_text_from_image envW fsW pW false := by
    rw [extract_envW_eq]; exact List.mem_singleton_self dW
  exact ⟨hmem, C1_confidence_strictly_above_threshold envW fsW pW false dW hmem⟩

/-! ## C2 -/

/-- A raw triple whose polygon is listed starting at the bottom-right
corner: its first point is not the top-left one. -/
def raw2 : RawDetection :=
  { p0 := (5, 5), p1 := (0, 5), p2 := (0, 0), p3 := (5, 0)
    text := String.toList "w"
    confidence := 9/10 }

/-- The environment whose engine reports exactly `raw2` in any file. -/
def env2 : Env := { idEnv with engineFile := fun _ => .ok [raw2] }

/-- The detection the service builds from `raw2`. -/
def d2 : Detection := formatDetection raw2

/-- Evaluation of the extraction at the concrete environment `env2`. -/
lemma extract_env2_eq : extract_text_from_image env2 fsW pW false = [d2] := by
  simp [extract_text_from_image, extractBody, extractInput, runReadtext, env2, idEnv, fsW,
    formatResults, formatDetection, d2, raw2, pyStrip, pyInt, List.dropWhile,
    List.filter, dec_tenth_lt, pyIsSpace]

/-- **C2** counterexample: the code copies polygon point `[0]` into
`(x0, y0)` and point `[2]` into `(x1, y1)` without reordering, so an engine
polygon whose first point is the bottom-right corner yields a returned
detection with `x0 > x1` and `y0 > y1` — the claimed normalization does
not happen for every polygon the engine may produce. -/
theorem C2_counterexample :
    ∃ d ∈ extract_text_from_image env2 fsW pW false,
      ¬ (d.bbox.x0 ≤ d.bbox.x1 ∧ d.bbox.y0 ≤ d.bbox.y1) := by
  refine ⟨d2, ?_, ?_⟩
  · rw [extract_env2_eq]
    exact List.mem_singleton_self d2
  · have hb : d2.bbox = ⟨5, 5, 0, 0⟩ := by
      simp [d2, formatDetection, raw2, pyInt]
    rw [hb]
    decide

/-- **C2** (amended): whenever every raw polygon delivered by the engine has
its first point coordinatewise at most its third point (as in the engine's
standard top-left, top-right, bottom-right, bottom-left order), every
returned detection satisfies `x0 ≤ x1` and `y0 ≤ y1`; the truncation
`int(...)` preserves the ordering. -/
theorem C2_bbox_ordered_of_engine_ordered (env : Env) (fs : FS) (p : FPath) (pre : Bool)
    (hImg : ∀ i rs, env.engineImage i = .ok rs →
      ∀ r ∈ rs, r.p0.1 ≤ r.p2.1 ∧ r.p0.2 ≤ r.p2.2)
    (hFile : ∀ b rs, env.engineFile b = .ok rs →
      ∀ r ∈ rs, r.p0.1 ≤ r.p2.1 ∧ r.p0.2 ≤ r.p2.2)
    (hNone : ∀ rs, env.engineNone = .ok rs →
      ∀ r ∈ rs, r.p0.1 ≤ r.p2.1 ∧ r.p0.2 ≤ r.p2.2)
    (d : Detection) (h : d ∈ extract_text_from_image env fs p pre) :
    d.bbox.x0 ≤ d.bbox.x1 ∧ d.bbox.y0 ≤ d.bbox.y1 := by
  obtain ⟨rs, hrun, r, hrm, _, rfl⟩ := mem_extract h
  have hord : r.p0.1 ≤ r.p2.1 ∧ r.p0.2 ≤ r.p2.2 := by
    cases hin : extractInput env fs p pre with
    | img i =>
      rw [hin] at hrun
      exact hImg i rs hrun r hrm
    | noneInput =>
      rw [hin] at hrun
      exact hNone rs hrun r hrm
    | path q =>
      rw [hin] at hrun
      simp only [runReadtext] at hrun
      cases hfs : fs q with
      | none => rw [hfs] at hrun; simp at hrun
      | some b => rw [hfs] at hrun; exact hFile b rs hrun r hrm
  exact ⟨pyInt_mono hord.1, pyInt_mono hord.2⟩

/-- Witness for the amended C2: at `envW` the engine's polygons are in
standard order and the returned detection's corners are ordered. -/
theorem C2_witness :
    dW ∈ extract_text_from_image envW fsW pW false ∧
      (dW.bbox.x0 ≤ dW.bbox.x1 ∧ dW.bbox.y0 ≤ dW.bbox.y1) := by
  have hmem : dW ∈ extract_text_from_image envW fsW pW false := by
    rw [extract_envW_eq]; exact List.mem_singleton_self dW
  refine ⟨hmem, C2_bbox_ordered_of_engine_ordered envW fsW pW false ?_ ?_ ?_ dW hmem⟩
  · intro i rs h r hr
    simp only [envW, idEnv] at h
    cases h
    cases hr
  · intro b rs h r hr
    simp only [envW, idEnv] at h
    cases h
    rcases List.mem_singleton.mp hr with rfl
    constructor <;> norm_num [rawW]
  · intro rs h r hr
    simp only [envW, idEnv] at h
    cases h

/-! ## C3 -/

/-- **C3**: on a nonexistent or unreadable path (no file in the filesystem;
`readtext(None)` raising, as the real library does, is recorded as the
`engineNone` hypothesis), `extract_text_from_image` returns the empty list
— with and without preprocessing — instead of propagating an exception
(the embedding is total, so no exception can escape). -/
theorem C3_unreadable_path_returns_empty (env : Env) (fs : FS) (p : FPath)
    (pre : Bool) (e : Err)
    (hmiss : fs p = none) (hNone : env.engineNone = .error e) :
    extract_text_from_image env fs p pre = [] := by
  cases pre
  case false =>
    simp [extract_text_from_image, extractBody, extractInput, runReadtext, hmiss]
  case true =>
    simp [extract_text_from_image, extractBody, extractInput, runReadtext,
      preprocess_image, preprocessBody, cvImread, cvImreadGray, hmiss, hNone]

/-- Witness for C3: the empty filesystem with the benign environment. -/
theorem C3_witness :
    fsEmpty pW = none ∧ idEnv.engineNone = .error (String.toList "readtext(None)") ∧
      extract_text_from_image idEnv fsEmpty pW true = [] :=
  ⟨rfl, rfl, C3_unreadable_path_returns_empty idEnv fsEmpty pW true _ rfl rfl⟩

/-! ## C4 -/

/-- An invocation supplying both `--image` and `--base64`. -/
def argsBoth : Args :=
  { image := some (String.toList "a.png")
    base64 := some (String.toList "QUFB")
    noPreprocess := false
    outputFormat := .json }

/-- An invocation supplying neither `--image` nor `--base64`. -/
def argsNone : Args :=
  { image := none, base64 := none, noPreprocess := false, outputFormat := .json }

/-- **C4** counterexample: with both `--image` and `--base64` supplied (so
"exactly one" is violated) the process does not exit with code 1 — it
proceeds with the `--image` branch and exits 0. -/
theorem C4_counterexample :
    pyTruthy argsBoth.image = true ∧ pyTruthy argsBoth.base64 = true ∧
      (CLI.main idEnv fsW argsBoth).exitCode = 0 := by
  refine ⟨rfl, rfl, ?_⟩
  simp [CLI.main, argsBoth, pyTruthy, idEnv]

/-- **C4** (amended): the CLI requires at least one of `--image` and
`--base64` to be truthy: when neither is, it exits with code 1, prints the
error line to stderr and produces no stdout.  (When both are given,
`--image` takes precedence and no exit-1 occurs, as the counterexample
shows.) -/
theorem C4_neither_input_exits_one (env : Env) (fs : FS) (args : Args)
    (h1 : pyTruthy args.image = false) (h2 : pyTruthy args.base64 = false) :
    CLI.main env fs args = { exitCode := 1, stdout := [], errLines := [errNoInput] } := by
  simp [CLI.main, h1, h2]

/-- Witness for the amended C4: no input source at all. -/
theorem C4_witness :
    pyTruthy argsNone.image = false ∧ pyTruthy argsNone.base64 = false ∧
      CLI.main idEnv fsW argsNone = { exitCode := 1, stdout := [], errLines := [errNoInput] } :=
  ⟨rfl, rfl, C4_neither_input_exits_one idEnv fsW argsNone rfl rfl⟩

/-! ## C5 -/

/-- Splitting at newlines always yields at least one segment. -/
lemma splitNl_ne_nil (s : List Char) : splitNl s ≠ [] := by
  cases s with
  | nil => simp [splitNl]
  | cons c cs =>
    unfold splitNl
    split
    · simp
    · rcases h : splitNl cs with _ | ⟨l, ls⟩ <;> simp

/-- Splitting a newline-free segment followed by a newline peels off that
segment. -/
lemma splitNl_append_newline (t rest : List Char) (h : '\n' ∉ t) :
    splitNl (t ++ '\n' :: rest) = t :: splitNl rest := by
  induction t with
  | nil => simp [splitNl]
  | cons c t ih =>
    have hc : ¬ (c = '\n') := fun e => h (e ▸ List.mem_cons_self c t)
    have ht : '\n' ∉ t := fun m => h (List.mem_cons_of_mem c m)
    simp only [List.cons_append, splitNl, if_neg hc, List.append_eq]
    rw [ih ht]

/-- The stdout lines produced by the text-mode output statement
`print(backslash-n.join(texts))` on newline-free texts: the texts themselves
when there is at least one, and a single empty line when there are none. -/
lemma stdoutLines_join (ts : List (List Char)) (hnl : ∀ t ∈ ts, '\n' ∉ t) :
    stdoutLines (pyJoin ['\n'] ts ++ ['\n']) = if ts = [] then [[]] else ts := by
  induction ts with
  | nil => simp [pyJoin, stdoutLines, splitNl]
  | cons t ts ih =>
    have ht : '\n' ∉ t := hnl t (List.mem_cons_self _ _)
    cases ts with
    | nil =>
      show stdoutLines (t ++ '\n' :: []) = _
      unfold stdoutLines
      rw [splitNl_append_newline t [] ht]
      simp [splitNl]
    | cons u ts' =>
      have hrest : ∀ x ∈ u :: ts', '\n' ∉ x := fun x hx => hnl x (List.mem_cons_of_mem _ hx)
      have ihr := ih hrest
      have hjoin : pyJoin ['\n'] (t :: u :: ts') ++ ['\n'] =
          t ++ '\n' :: (pyJoin ['\n'] (u :: ts') ++ ['\n']) := by
        simp [pyJoin]
      rw [hjoin]
      unfold stdoutLines
      rw [splitNl_append_newline _ _ ht]
      rw [List.dropLast_cons_of_ne_nil (splitNl_ne_nil _)]
      unfold stdoutLines at ihr
      rw [ihr]
      simp

/-- An invocation asking for text output of the image at `pW`. -/
def argsText : Args :=
  { image := some pW, base64 := none, noPreprocess := false, outputFormat := .text }

/-- Evaluation of the extraction at the benign environment: no detections. -/
lemma extract_idEnv_fsW_empty : extract_text_from_image idEnv fsW pW true = [] := by
  simp [extract_text_from_image, extractBody, extractInput, preprocess_image, preprocessBody,
    cvImread, cvImreadGray, runReadtext, idEnv, fsW, formatResults]

/-- **C5** counterexample: on an empty detection list (`N = 0`) the text
mode writes a single newline — one empty line on stdout, not zero lines. -/
theorem C5_counterexample :
    extract_text_from_image idEnv fsW pW true = [] ∧
      (CLI.main idEnv fsW argsText).stdout = ['\n'] ∧
      stdoutLines (CLI.main idEnv fsW argsText).stdout ≠ [] := by
  have hstdout : (CLI.main idEnv fsW argsText).stdout = ['\n'] := by
    simp [CLI.main, argsText, pyTruthy, pW, idEnv, extract_idEnv_fsW_empty, pyJoin]
  refine ⟨extract_idEnv_fsW_empty, hstdout, ?_⟩
  rw [hstdout]
  simp [stdoutLines, splitNl]

/-- **C5** (amended): with `--output-format text`, on a detection list of
length `N` whose texts contain no newline character, stdout carries exactly
the `N` detection texts as lines, in detection order, when `N ≥ 1`; when
`N = 0` it carries a single empty line (`print` of the empty join). -/
theorem C5_text_mode_lines (env : Env) (fs : FS) (args : Args) (ds : List Detection)
    (hinit : env.initOk = true)
    (himg : pyTruthy args.image = true)
    (hfmt : args.outputFormat = .text)
    (hds : extract_text_from_image env fs (args.image.getD []) (!args.noPreprocess) = ds)
    (hnl : ∀ d ∈ ds, '\n' ∉ d.text) :
    stdoutLines (CLI.main env fs args).stdout =
      if ds = [] then [[]] else ds.map Detection.text := by
  have hmain : (CLI.main env fs args).stdout =
      pyJoin ['\n'] (ds.map Detection.text) ++ ['\n'] := by
    simp [CLI.main, himg, hinit, hfmt, hds]
  rw [hmain, stdoutLines_join]
  · by_cases h : ds = []
    · simp [h]
    · simp [h]
  · intro t ht
    obtain ⟨d, hd, rfl⟩ := List.mem_map.mp ht
    exact hnl d hd

/-- An invocation asking for text output with preprocessing disabled. -/
def argsTextW : Args :=
  { image := some pW, base64 := none, noPreprocess := true, outputFormat := .text }

/-- Witness for the amended C5: one detection, one line holding its text. -/
theorem C5_witness :
    stdoutLines (CLI.main envW fsW argsTextW).stdout = [dW.text] := by
  have h := C5_text_mode_lines envW fsW argsTextW [dW] rfl rfl rfl extract_envW_eq
    (by intro d hd; rcases List.mem_singleton.mp hd with rfl; decide)
  simpa using h

/-! ## C6 -/

/-- A concrete base64 payload string. -/
def sB64 : List Char := String.toList "QUFB"

/-- An environment in which the JPEG re-encoding step changes the bytes
(`jpegEncode` maps everything to `1`) and the engine reads different text
from the re-encoded bytes than from the original file bytes `0`. -/
def env6 : Env :=
  { idEnv with
    b64decode := fun s => if s = sB64 then .ok 0 else .error (String.toList "bad base64")
    jpegEncode := fun _ => 1
    engineFile := fun b => if b = 0 then .ok [rawW] else .ok [] }

/-- **C6** counterexample: the base64 path hands the engine the decoded,
RGB-to-BGR-converted, JPEG-re-encoded temp file rather than the original
bytes, so even a deterministic engine can return a different detection
list than the direct path on the original file. -/
theorem C6_counterexample :
    (extract_text_from_base64 env6 fsW sB64 false).1 ≠
      extract_text_from_image env6 fsW pW false := by
  have h1 : (extract_text_from_base64 env6 fsW sB64 false).1 = [] := by
    simp [extract_text_from_base64, env6, idEnv, extract_text_from_image, extractBody,
      extractInput, runReadtext, formatResults]
  have h2 : extract_text_from_image env6 fsW pW false = [dW] := by
    simp [extract_text_from_image, extractBody, extractInput, runReadtext, env6, idEnv, fsW,
      formatResults, formatDetection, dW, rawW, pyStrip, pyInt, List.dropWhile,
      List.filter, dec_tenth_lt, pyIsSpace]
  rw [h1, h2]
  simp

/-- **C6** (amended): with preprocessing disabled, the base64 round trip
returns the same detection list as the direct path whenever the engine
reads the same detections from the re-encoded temp bytes
(`jpegEncode (rgb2bgr img)`) as from the original file bytes — e.g. when
the decode → convert → JPEG-encode pipeline reproduces the original bytes.
Without that invariance the lists can differ (see the counterexample):
the temp file is a lossy JPEG re-encoding, not the original file. -/
theorem C6_roundtrip_under_reencode_invariance (env : Env) (fs : FS) (s : List Char)
    (p : FPath) (b : Bytes) (img : Image)
    (hdec : env.b64decode s = .ok b)
    (hpil : env.pilOpen b = .ok img)
    (hfile : fs p = some b)
    (heng : env.engineFile (env.jpegEncode (env.rgb2bgr img)) = env.engineFile b) :
    (extract_text_from_base64 env fs s false).1 = extract_text_from_image env fs p false := by
  have hL : extract_text_from_image env
      (fun q => if q = tempPath then some (env.jpegEncode (env.rgb2bgr img)) else fs q)
      tempPath false = extract_text_from_image env fs p false := by
    unfold extract_text_from_image extractBody extractInput runReadtext
    simp [hfile, heng]
  simp only [extract_text_from_base64, hdec, hpil]
  exact hL

/-- The identity-pipeline environment: base64 decoding, PIL decoding,
channel conversion and JPEG encoding all reproduce the same opaque bytes. -/
def envRT : Env := { idEnv with b64decode := fun _ => .ok 0, engineFile := fun _ => .ok [rawW] }

/-- Witness for the amended C6: with an identity re-encode pipeline the two
call paths return the same detection list. -/
theorem C6_witness :
    (extract_text_from_base64 envRT fsW sB64 false).1 =
      extract_text_from_image envRT fsW pW false :=
  C6_roundtrip_under_reencode_invariance envRT fsW sB64 pW 0 0 rfl rfl rfl rfl

/-! ## C7 -/

/-- A filesystem on which the fixed temp path already holds a stale file. -/
def fs7 : FS := fun q => if q = tempPath then some 5 else none

/-- **C7** counterexample: when the fixed temp path already exists before
the call and the base64 payload fails to decode, the early exception path
skips the cleanup, and after the call returns the temp path still exists. -/
theorem C7_counterexample :
    fs7 tempPath = some 5 ∧
      (extract_text_from_base64 idEnv fs7 sB64 true).2 tempPath ≠ none := by
  refine ⟨rfl, ?_⟩
  have hres : (extract_text_from_base64 idEnv fs7 sB64 true).2 tempPath = some 5 := rfl
  rw [hres]
  simp

/-- **C7** (amended): the temp file is removed on every return path on
which this call created it; hence if the fixed temp path does not exist
before the call it does not exist after it, and every other path is left
untouched by the call. -/
theorem C7_temp_removed_when_absent_initially (env : Env) (fs : FS) (s : List Char)
    (pre : Bool) (h : fs tempPath = none) :
    (extract_text_from_base64 env fs s pre).2 tempPath = none ∧
      ∀ q, q ≠ tempPath → (extract_text_from_base64 env fs s pre).2 q = fs q := by
  constructor
  · unfold extract_text_from_base64
    split
    · exact h
    · split
      · exact h
      · simp
  · intro q hq
    unfold extract_text_from_base64
    split
    · rfl
    · split
      · rfl
      · simp [hq]

/-- Witness for the amended C7: a clean filesystem stays clean. -/
theorem C7_witness :
    fsEmpty tempPath = none ∧
      (extract_text_from_base64 idEnv fsEmpty sB64 false).2 tempPath = none :=
  ⟨rfl, (C7_temp_removed_when_absent_initially idEnv fsEmpty sB64 false rfl).1⟩

/-! ## C8 -/

/-- **C8**: when any step of the preprocessing chain fails — the load
yields `None`, or the grayscale conversion, blur, adaptive threshold or
morphological close raises — `preprocess_image` discards the partial
result and returns the direct grayscale load of the path; being total, it
propagates no exception. -/
theorem C8_preprocess_fallback_to_grayscale (env : Env) (fs : FS) (p : FPath)
    (h : cvImread env fs p = none
       ∨ (∃ i e, cvImread env fs p = some i ∧ env.cvtColorGray i = .error e)
       ∨ (∃ i g e, cvImread env fs p = some i ∧ env.cvtColorGray i = .ok g ∧
            env.gaussianBlur g = .error e)
       ∨ (∃ i g bl e, cvImread env fs p = some i ∧ env.cvtColorGray i = .ok g ∧
            env.gaussianBlur g = .ok bl ∧ env.adaptiveThreshold bl = .error e)
       ∨ (∃ i g bl th e, cvImread env fs p = some i ∧ env.cvtColorGray i = .ok g ∧
            env.gaussianBlur g = .ok bl ∧ env.adaptiveThreshold bl = .ok th ∧
            env.morphologyEx th = .error e)) :
    preprocess_image env fs p = cvImreadGray env fs p := by
  unfold preprocess_image preprocessBody
  rcases h with h | ⟨i, e, h1, h2⟩ | ⟨i, g, e, h1, h2, h3⟩ | ⟨i, g, bl, e, h1, h2, h3, h4⟩ |
    ⟨i, g, bl, th, e, h1, h2, h3, h4, h5⟩
  · simp [h]
  · simp [h1, h2]
  · simp [h1, h2, h3]
  · simp [h1, h2, h3, h4]
  · simp [h1, h2, h3, h4, h5]

/-- The environment whose morphological-close step raises. -/
def env8 : Env := { idEnv with morphologyEx := fun _ => .error (String.toList "boom") }

/-- Witness for C8: a failure in the last chain step falls back to the
grayscale load. -/
theorem C8_witness :
    preprocess_image env8 fsW pW = cvImreadGray env8 fsW pW :=
  C8_preprocess_fallback_to_grayscale env8 fsW pW
    (Or.inr (Or.inr (Or.inr (Or.inr
      ⟨0, 0, 0, 0, String.toList "boom", rfl, rfl, rfl, rfl, rfl⟩))))

/-! ## C9 -/

/-- **C9**: when the invocation has an input source, the engine constructs,
the selected format is JSON (the default) and the extraction produces the
empty detection list, the process writes exactly `[]` (plus `print`'s
newline) to stdout and exits with code 0: an empty result is success. -/
theorem C9_empty_json_prints_brackets_exit_zero (env : Env) (fs : FS) (args : Args)
    (hinit : env.initOk = true)
    (hsome : pyTruthy args.image = true ∨ pyTruthy args.base64 = true)
    (hfmt : args.outputFormat = .json)
    (himg : pyTruthy args.image = true →
      extract_text_from_image env fs (args.image.getD []) (!args.noPreprocess) = [])
    (hb64 : pyTruthy args.image = false →
      (extract_text_from_base64 env fs (args.base64.getD []) (!args.noPreprocess)).1 = []) :
    (CLI.main env fs args).exitCode = 0 ∧
      (CLI.main env fs args).stdout = ['[', ']', '\n'] := by
  have hcond : (!pyTruthy args.image && !pyTruthy args.base64) = false := by
    rcases hsome with h | h <;> simp [h]
  cases hi : pyTruthy args.image with
  | true => constructor <;> simp [CLI.main, hcond, hinit, hi, hfmt, himg hi, jsonDumps]
  | false =>
    have hb : pyTruthy args.base64 = true := by
      rcases hsome with h | h
      · rw [hi] at h; exact absurd h (by simp)
      · exact h
    constructor <;> simp [CLI.main, hinit, hi, hb, hfmt, hb64 hi, jsonDumps]

/-- An invocation asking for JSON output of the image at `pW`. -/
def argsJson : Args :=
  { image := some pW, base64 := none, noPreprocess := false, outputFormat := .json }

/-- Witness for C9: no detections, JSON mode. -/
theorem C9_witness :
    (CLI.main idEnv fsW argsJson).exitCode = 0 ∧
      (CLI.main idEnv fsW argsJson).stdout = ['[', ']', '\n'] :=
  C9_empty_json_prints_brackets_exit_zero idEnv fsW argsJson rfl (Or.inl rfl) rfl
    (fun _ => extract_idEnv_fsW_empty)
    (fun hfalse => by simp [argsJson, pyTruthy, pW] at hfalse)

/-! ## C10 -/

/-- The head surviving a `dropWhile` does not satisfy the predicate. -/
lemma head?_dropWhile_not {α} (p : α → Bool) (l : List α) {a : α}
    (h : (l.dropWhile p).head? = some a) : p a = false := by
  induction l with
  | nil => simp [List.dropWhile] at h
  | cons c l ih =>
    rw [List.dropWhile_cons] at h
    by_cases hc : p c = true
    · rw [if_pos hc] at h
      exact ih h
    · rw [if_neg hc, List.head?_cons] at h
      obtain rfl : c = a := by injection h
      cases hpc : p c with
      | false => rfl
      | true => exact absurd hpc hc

/-- A nonempty `dropWhile` keeps the last element of the list. -/
lemma getLast?_dropWhile_of_ne_nil {α} (p : α → Bool) (l : List α)
    (h : l.dropWhile p ≠ []) : (l.dropWhile p).getLast? = l.getLast? := by
  induction l with
  | nil => simp [List.dropWhile] at h
  | cons c l ih =>
    rw [List.dropWhile_cons] at h ⊢
    by_cases hc : p c = true
    · rw [if_pos hc] at h ⊢
      cases l with
      | nil => simp [List.dropWhile] at h
      | cons x l' =>
        rw [List.getLast?_cons_cons]
        exact ih h
    · rw [if_neg hc]

/-- `pyStrip` leaves no whitespace at the front. -/
lemma pyStrip_head_not_space (s : List Char) {c : Char}
    (h : (pyStrip s).head? = some c) : pyIsSpace c = false := by
  unfold pyStrip at h
  rw [List.head?_reverse] at h
  have hne : (s.dropWhile pyIsSpace).reverse.dropWhile pyIsSpace ≠ [] := by
    intro e
    rw [e] at h
    simp at h
  rw [getLast?_dropWhile_of_ne_nil _ _ hne, List.getLast?_reverse] at h
  exact head?_dropWhile_not _ _ h

/-- `pyStrip` leaves no whitespace at the back. -/
lemma pyStrip_getLast_not_space (s : List Char) {c : Char}
    (h : (pyStrip s).getLast? = some c) : pyIsSpace c = false := by
  unfold pyStrip at h
  rw [List.getLast?_reverse] at h
  exact head?_dropWhile_not _ _ h

/-- Every detection returned by the base64 path comes from an image-path
extraction (on the temp-file filesystem). -/
lemma mem_extract_base64 {env : Env} {fs : FS} {s : List Char} {pre : Bool} {d : Detection}
    (h : d ∈ (extract_text_from_base64 env fs s pre).1) :
    ∃ fs1, d ∈ extract_text_from_image env fs1 tempPath pre := by
  unfold extract_text_from_base64 at h
  rcases hd : env.b64decode s with e | b
  · simp [hd] at h
  · simp only [hd] at h
    rcases hp : env.pilOpen b with e | img
    · simp [hp] at h
    · simp only [hp] at h
      exact ⟨_, h⟩

/-- **C10**: the `text` field of every detection returned by
`extract_text_from_image` — and hence by `extract_text_from_base64`, which
delegates to it — carries no leading or trailing whitespace: the raw engine
text is passed through `str.strip()` before being stored. -/
theorem C10_text_has_no_outer_whitespace (env : Env) (fs : FS) (p : FPath)
    (pre : Bool) (s : List Char) (d : Detection)
    (h : d ∈ extract_text_from_image env fs p pre ∨
         d ∈ (extract_text_from_base64 env fs s pre).1) :
    (∀ c, d.text.head? = some c → pyIsSpace c = false) ∧
      (∀ c, d.text.getLast? = some c → pyIsSpace c = false) := by
  have hmem : ∃ envx fsx px, d ∈ extract_text_from_image envx fsx px pre := by
    rcases h with h | h
    · exact ⟨env, fs, p, h⟩
    · obtain ⟨fs1, h1⟩ := mem_extract_base64 h
      exact ⟨env, fs1, tempPath, h1⟩
  obtain ⟨envx, fsx, px, hm⟩ := hmem
  obtain ⟨rs, _, r, _, _, rfl⟩ := mem_extract hm
  have htext : (formatDetection r).text = pyStrip r.text := rfl
  rw [htext]
  exact ⟨fun c hc => pyStrip_head_not_space _ hc,
    fun c hc => pyStrip_getLast_not_space _ hc⟩

/-- Witness for C10: the detection built from the padded text " hello "
has stripped text with no outer whitespace. -/
theorem C10_witness :
    (dW ∈ extract_text_from_image envW fsW pW false ∨
        dW ∈ (extract_text_from_base64 envW fsW sB64 false).1) ∧
      (∀ c, dW.text.head? = some c → pyIsSpace c = false) ∧
      (∀ c, dW.text.getLast? = some c → pyIsSpace c = false) := by
  have hmem : dW ∈ extract_text_from_image envW fsW pW false := by
    rw [extract_envW_eq]
    exact List.mem_singleton_self dW
  exact ⟨Or.inl hmem,
    C10_text_has_no_outer_whitespace envW fsW pW false sB64 dW (Or.inl hmem)⟩
